import Mathlib

/-!
Verification of the webcam motion particle system (`sketch.js`): gesture
classification, motion estimation, particle forces, integration, damping,
wraparound, and the explosion / recovery state machines.

Numbers are modelled as real numbers; the per-frame `random(a, b)` draws of
the source are passed in explicitly as parameters.  Fallible landmark access
(JavaScript `landmarks[i].x` throwing on a missing index) is modelled with
`Except Unit`.
-/

/-- A normalized or canvas-space 2-D point (`{x, y}` object in the source). -/
structure Pt where
  x : ℝ
  y : ℝ

/-- One detected hand: its list of landmarks (nominally 21 of them). -/
abbrev Hand := List Pt

/-- `createCanvas(640, 480)`: canvas width. -/
noncomputable def width : ℝ := 640

/-- `createCanvas(640, 480)`: canvas height. -/
noncomputable def height : ℝ := 480

/-- `const MAX_PARTICLES = 100`. -/
def MAX_PARTICLES : ℕ := 100

/-- `const EXPLOSION_DURATION = 60`. -/
def EXPLOSION_DURATION : ℕ := 60

/-- `const RECOVERY_DURATION = 120`. -/
def RECOVERY_DURATION : ℕ := 120

/-- The gesture mode: `"repel" | "attract" | "explosion" | "none"`. -/
inductive Mode where
  | none
  | repel
  | attract
  | explosion
  deriving DecidableEq, Repr

/-- p5 `map(v, s1, e1, s2, e2)` (no clamping). -/
noncomputable def p5map (v s1 e1 s2 e2 : ℝ) : ℝ :=
  s2 + (e2 - s2) * ((v - s1) / (e1 - s1))

/-- p5 `constrain(v, lo, hi)` = `max(min(v, hi), lo)`. -/
noncomputable def constrain (v lo hi : ℝ) : ℝ :=
  max lo (min v hi)

/-- p5 `lerp(a, b, t)` = `a + (b - a) * t`. -/
noncomputable def lerpP5 (a b t : ℝ) : ℝ :=
  a + (b - a) * t

/-- JavaScript array indexing `h[i]` followed by a member access: yields the
element when present, and a thrown `TypeError` (modelled as `Except.error ()`)
when the index is out of range. -/
def lkp (h : Hand) (i : ℕ) : Except Unit Pt :=
  match h.get? i with
  | some p => .ok p
  | Option.none => .error ()

/-- The fingertip landmark indices `[4, 8, 12, 16, 20]` of the source. -/
def fingertipIndices : List ℕ := [4, 8, 12, 16, 20]

/-- The loop body of `detectOpenPalm`: walk the fingertip indices and return
`false` as soon as one fingertip is closer than `0.15` to the palm center. -/
noncomputable def fingertipsFar (landmarks : Hand) (palmX palmY : ℝ) : List ℕ → Except Unit Bool
  | [] => .ok true
  | i :: rest => do
    let li ← lkp landmarks i
    let dx := li.x - palmX
    let dy := li.y - palmY
    let dist := Real.sqrt (dx * dx + dy * dy)
    if dist < 0.15 then .ok false else fingertipsFar landmarks palmX palmY rest

/-- The loop body of `detectFist`: walk the fingertip indices and return
`false` as soon as one fingertip is farther than `0.12` from the palm center. -/
noncomputable def fingertipsNear (landmarks : Hand) (palmX palmY : ℝ) : List ℕ → Except Unit Bool
  | [] => .ok true
  | i :: rest => do
    let li ← lkp landmarks i
    let dx := li.x - palmX
    let dy := li.y - palmY
    let dist := Real.sqrt (dx * dx + dy * dy)
    if dist > 0.12 then .ok false else fingertipsNear landmarks palmX palmY rest

/-- `detectOpenPalm(landmarks)`: all fingertips far from the palm center
(midpoint of landmarks 0 and 9). -/
noncomputable def detectOpenPalm (landmarks : Hand) : Except Unit Bool := do
  let l0 ← lkp landmarks 0
  let l9 ← lkp landmarks 9
  let palmX := (l0.x + l9.x) / 2
  let palmY := (l0.y + l9.y) / 2
  fingertipsFar landmarks palmX palmY fingertipIndices

/-- `detectFist(landmarks)`: all fingertips close to the palm center. -/
noncomputable def detectFist (landmarks : Hand) : Except Unit Bool := do
  let l0 ← lkp landmarks 0
  let l9 ← lkp landmarks 9
  let palmX := (l0.x + l9.x) / 2
  let palmY := (l0.y + l9.y) / 2
  fingertipsNear landmarks palmX palmY fingertipIndices

/-- `detectTwoHands()`: exactly two hands whose wrists (landmark 0) are more
than `0.15` apart in normalized space. -/
noncomputable def detectTwoHands (obs : List Hand) : Except Unit Bool :=
  match obs with
  | [h1, h2] => do
    let w1 ← lkp h1 0
    let w2 ← lkp h2 0
    let dx := w1.x - w2.x
    let dy := w1.y - w2.y
    let dist := Real.sqrt (dx * dx + dy * dy)
    .ok (if dist > 0.15 then true else false)
  | _ => .ok false

/-- `updateMode()`: computes the new `currentMode`, the new value of the
`explosionTriggered` latch, and whether `triggerExplosion()` was called this
frame.  Priority: two hands (explosion) > open palm (repel) > fist (attract)
> none; the latch resets whenever the two-hand condition fails. -/
noncomputable def updateMode (obs : List Hand) (explosionTriggered : Bool) :
    Except Unit (Mode × Bool × Bool) := do
  let two ← detectTwoHands obs
  if two then
    .ok (Mode.explosion, true, !explosionTriggered)
  else
    match obs with
    | [landmarks] => do
      let openPalm ← detectOpenPalm landmarks
      if openPalm then
        .ok (Mode.repel, false, false)
      else
        let fist ← detectFist landmarks
        if fist then
          .ok (Mode.attract, false, false)
        else
          .ok (Mode.none, false, false)
    | _ => .ok (Mode.none, false, false)

/-- Run `updateMode` over a sequence of per-frame observations from a given
latch state, counting how many frames called `triggerExplosion()`.  Returns
`none` if some frame threw. -/
noncomputable def runMode (trig : Bool) : List (List Hand) → Option (Bool × ℕ)
  | [] => some (trig, 0)
  | obs :: rest =>
    match updateMode obs trig with
    | .ok (_, trig', fired) =>
      match runMode trig' rest with
      | some (tf, n) => some (tf, (if fired then 1 else 0) + n)
      | Option.none => Option.none
    | .error _ => Option.none

/-- Element `i` of a hand with a default, used to state properties about the
values `lkp` succeeds with. -/
noncomputable def nthD (h : Hand) (i : ℕ) : Pt :=
  (h.get? i).getD ⟨0, 0⟩

/-- The palm-center x coordinate computed by `detectOpenPalm`/`detectFist`. -/
noncomputable def palmX (h : Hand) : ℝ :=
  ((nthD h 0).x + (nthD h 9).x) / 2

/-- The palm-center y coordinate computed by `detectOpenPalm`/`detectFist`. -/
noncomputable def palmY (h : Hand) : ℝ :=
  ((nthD h 0).y + (nthD h 9).y) / 2

/-- Distance from landmark `i` of hand `h` to the point `(px, py)`, exactly as
computed inside the fingertip loops. -/
noncomputable def tipDistTo (h : Hand) (px py : ℝ) (i : ℕ) : ℝ :=
  Real.sqrt (((nthD h i).x - px) * ((nthD h i).x - px) +
    ((nthD h i).y - py) * ((nthD h i).y - py))

/-- Distance from fingertip landmark `i` to the palm center of hand `h`. -/
noncomputable def palmDist (h : Hand) (i : ℕ) : ℝ :=
  tipDistTo h (palmX h) (palmY h) i

/-- Distance between the wrist landmarks of two hands, exactly as computed by
`detectTwoHands`. -/
noncomputable def wristDist (h1 h2 : Hand) : ℝ :=
  Real.sqrt (((nthD h1 0).x - (nthD h2 0).x) * ((nthD h1 0).x - (nthD h2 0).x) +
    ((nthD h1 0).y - (nthD h2 0).y) * ((nthD h1 0).y - (nthD h2 0).y))

lemma lkp_eq_ok (h : Hand) (i : ℕ) (hi : i < h.length) : lkp h i = .ok (nthD h i) := by
  unfold lkp nthD
  cases hg : h.get? i with
  | none => exact absurd (List.get?_eq_none.mp hg) (by omega)
  | some p => rfl

lemma lkp_eq_error (h : Hand) (i : ℕ) (hi : h.length ≤ i) : lkp h i = .error () := by
  unfold lkp
  rw [List.get?_eq_none.mpr hi]

/-- A particle of the pool (`class Particle`). -/
structure Particle where
  x : ℝ
  y : ℝ
  vx : ℝ
  vy : ℝ
  baseSpeed : ℝ
  baseSize : ℝ
  currentSize : ℝ
  targetSize : ℝ
  hue : ℝ
  alpha : ℝ

/-- The per-frame global state read by `Particle.update`. -/
structure Env where
  currentMode : Mode
  indexFingerTip : Option Pt
  explosionMidpoint : Option Pt
  explosionTimer : ℕ
  gestureRecoveryTimer : ℕ
  motionDX : ℝ
  motionDY : ℝ
  intensity : ℝ

/-- The `random(...)` draws made inside one `Particle.update` call:
the two recovery-dispersal draws (`random(-0.15, 0.15)`) and the two
ambient-jitter draws (`random(-0.05, 0.05)`). -/
structure Draws where
  recX : ℝ
  recY : ℝ
  jitX : ℝ
  jitY : ℝ

/-- The repel-force velocity delta (`if (currentMode === "repel" && indexFingerTip)`
block of `Particle.update`), evaluated at particle position `(px, py)`. -/
noncomputable def repelDelta (mode : Mode) (tip : Option Pt) (px py : ℝ) : ℝ × ℝ :=
  if mode = Mode.repel then
    match tip with
    | some t =>
      let handX := width - t.x
      let handY := t.y
      let dx := px - handX
      let dy := py - handY
      let distSq := dx * dx + dy * dy
      let dist := Real.sqrt distSq
      if dist < 300 ∧ dist > 1 then
        let strength := min (8.0 / (1 + distSq * 0.0005)) 5.0
        (dx / dist * strength, dy / dist * strength)
      else (0, 0)
    | Option.none => (0, 0)
  else (0, 0)

/-- The attract-force velocity delta (`if (currentMode === "attract" && indexFingerTip)`
block of `Particle.update`). -/
noncomputable def attractDelta (mode : Mode) (tip : Option Pt) (px py : ℝ) : ℝ × ℝ :=
  if mode = Mode.attract then
    match tip with
    | some t =>
      let handX := width - t.x
      let handY := t.y
      let dx := handX - px
      let dy := handY - py
      let dist := Real.sqrt (dx * dx + dy * dy)
      if dist < 300 ∧ dist > 1 then
        let strength := min (2.5 / (1 + dist * 0.02)) 1.5
        (dx / dist * strength, dy / dist * strength)
      else (0, 0)
    | Option.none => (0, 0)
  else (0, 0)

/-- The explosion-force velocity delta (`if (explosionMidpoint && explosionTimer > 0)`
block of `Particle.update`). -/
noncomputable def explosionDelta (mid : Option Pt) (timer : ℕ) (px py : ℝ) : ℝ × ℝ :=
  match mid with
  | some m =>
    if 0 < timer then
      let dx := px - m.x
      let dy := py - m.y
      let dist := Real.sqrt (dx * dx + dy * dy)
      if dist > 1 then
        let timeFactor := (timer : ℝ) / (EXPLOSION_DURATION : ℝ)
        let strength := min (5.0 * timeFactor / (1 + dist * 0.01)) 4.0
        (dx / dist * strength, dy / dist * strength)
      else (0, 0)
    else (0, 0)
  | Option.none => (0, 0)

/-- The recovery re-disperse velocity delta (`if (currentMode === "none" &&
gestureRecoveryTimer > 0)` block of `Particle.update`); `rx, ry` are the two
`random(-0.15, 0.15)` draws. -/
noncomputable def recoveryDelta (mode : Mode) (recTimer : ℕ) (rx ry : ℝ) : ℝ × ℝ :=
  if mode = Mode.none ∧ 0 < recTimer then
    let recoveryFactor := (recTimer : ℝ) / (RECOVERY_DURATION : ℝ)
    (rx * recoveryFactor, ry * recoveryFactor)
  else (0, 0)

/-- The edge-wrapping of `Particle.update`: `if (v < 0) v = limit; if (v > limit) v = 0`. -/
noncomputable def wrapCoord (v limit : ℝ) : ℝ :=
  let a := if v < 0 then limit else v
  if a > limit then 0 else a

/-- `Particle.update(intensity)`, line for line: motion coupling, position
integration, alpha, size, repel/attract/explosion/recovery forces, ambient
jitter, damping, velocity clamp, edge wrap. -/
noncomputable def Particle.update (env : Env) (r : Draws) (p : Particle) : Particle :=
  let speedMultiplier := p5map env.intensity 0 100 0.5 3
  let vx1 := p.vx + env.motionDX * 0.7
  let vy1 := p.vy + env.motionDY * 0.7
  let x1 := p.x + vx1 * p.baseSpeed * speedMultiplier
  let y1 := p.y + vy1 * p.baseSpeed * speedMultiplier
  let alpha1 := p5map env.intensity 0 100 20 90
  let gestureActive := env.currentMode = Mode.repel ∨ env.currentMode = Mode.attract ∨
    env.currentMode = Mode.explosion
  let targetSize1 := if gestureActive then p.baseSize * 3 else p.baseSize
  let alpha2 := if gestureActive then constrain (alpha1 + 5) 0 95
    else lerpP5 alpha1 (p5map env.intensity 0 100 20 90) 0.1
  let currentSize1 := lerpP5 p.currentSize targetSize1 0.08
  let rep := repelDelta env.currentMode env.indexFingerTip x1 y1
  let vx2 := vx1 + rep.1
  let vy2 := vy1 + rep.2
  let att := attractDelta env.currentMode env.indexFingerTip x1 y1
  let vx3 := vx2 + att.1
  let vy3 := vy2 + att.2
  let expl := explosionDelta env.explosionMidpoint env.explosionTimer x1 y1
  let vx4 := vx3 + expl.1
  let vy4 := vy3 + expl.2
  let recov := recoveryDelta env.currentMode env.gestureRecoveryTimer r.recX r.recY
  let vx5 := vx4 + recov.1
  let vy5 := vy4 + recov.2
  let vx6 := vx5 + r.jitX
  let vy6 := vy5 + r.jitY
  let vx7 := vx6 * 0.95
  let vy7 := vy6 * 0.95
  let vx8 := constrain vx7 (-8) 8
  let vy8 := constrain vy7 (-8) 8
  { p with
    x := wrapCoord x1 width
    y := wrapCoord y1 height
    vx := vx8
    vy := vy8
    currentSize := currentSize1
    targetSize := targetSize1
    alpha := alpha2 }

/-- Modelled from the claim (C1), not from the source: the update order the
claim describes, in which every velocity delta (motion coupling, repel,
attract, explosion, recovery, jitter — all evaluated at the pre-integration
position) and then the damping with its clamp are applied to the velocity
first, and the position integration of the same frame then uses the resulting
velocity. -/
noncomputable def Particle.updateClaimed (env : Env) (r : Draws) (p : Particle) : Particle :=
  let speedMultiplier := p5map env.intensity 0 100 0.5 3
  let rep := repelDelta env.currentMode env.indexFingerTip p.x p.y
  let att := attractDelta env.currentMode env.indexFingerTip p.x p.y
  let expl := explosionDelta env.explosionMidpoint env.explosionTimer p.x p.y
  let recov := recoveryDelta env.currentMode env.gestureRecoveryTimer r.recX r.recY
  let vxAll := p.vx + env.motionDX * 0.7 + rep.1 + att.1 + expl.1 + recov.1 + r.jitX
  let vyAll := p.vy + env.motionDY * 0.7 + rep.2 + att.2 + expl.2 + recov.2 + r.jitY
  let vxD := constrain (vxAll * 0.95) (-8) 8
  let vyD := constrain (vyAll * 0.95) (-8) 8
  let alpha1 := p5map env.intensity 0 100 20 90
  let gestureActive := env.currentMode = Mode.repel ∨ env.currentMode = Mode.attract ∨
    env.currentMode = Mode.explosion
  let targetSize1 := if gestureActive then p.baseSize * 3 else p.baseSize
  let alpha2 := if gestureActive then constrain (alpha1 + 5) 0 95
    else lerpP5 alpha1 (p5map env.intensity 0 100 20 90) 0.1
  let currentSize1 := lerpP5 p.currentSize targetSize1 0.08
  { p with
    x := wrapCoord (p.x + vxD * p.baseSpeed * speedMultiplier) width
    y := wrapCoord (p.y + vyD * p.baseSpeed * speedMultiplier) height
    vx := vxD
    vy := vyD
    currentSize := currentSize1
    targetSize := targetSize1
    alpha := alpha2 }

/-- The motion-estimator state carried across frames: `prevFingerPos`,
`motionIntensity`, `motionDX`, `motionDY`. -/
structure MotionState where
  prevFingerPos : Option Pt
  motionIntensity : ℝ
  motionDX : ℝ
  motionDY : ℝ

/-- `calculateMotionFromHand()` in the case where a fingertip is present:
compute displacement from the previous fingertip (when one is stored),
update intensity and (past the deadband) direction, then store the current
fingertip as previous. -/
noncomputable def calculateMotionFromHand (s : MotionState) (tip : Pt) : MotionState :=
  match s.prevFingerPos with
  | some prev =>
    let dx := tip.x - prev.x
    let dy := tip.y - prev.y
    let displacement := Real.sqrt (dx * dx + dy * dy)
    let intensity := constrain (p5map displacement 0 20 0 100) 0 100
    let dir := if displacement > 0.1 then
        (constrain (-dx / 10) (-1) 1, constrain (dy / 10) (-1) 1)
      else (s.motionDX, s.motionDY)
    { prevFingerPos := some tip
      motionIntensity := intensity
      motionDX := dir.1
      motionDY := dir.2 }
  | Option.none => { s with prevFingerPos := some tip }

/-- The motion part of `draw()`: with a fingertip, run
`calculateMotionFromHand()`; with no hand detected, zero the motion signal
(lines 307–315 of the source). -/
noncomputable def motionFrame (s : MotionState) (tip : Option Pt) : MotionState :=
  match tip with
  | some t => calculateMotionFromHand s t
  | Option.none => { s with motionIntensity := 0, motionDX := 0, motionDY := 0 }

/-- The recovery-arming statement of `draw()`:
`if (previousMode !== "none" && currentMode === "none") gestureRecoveryTimer = RECOVERY_DURATION`. -/
def armRecovery (previousMode currentMode : Mode) (timer : ℕ) : ℕ :=
  if previousMode ≠ Mode.none ∧ currentMode = Mode.none then RECOVERY_DURATION else timer

/-- The recovery-countdown statement of `draw()`:
`if (gestureRecoveryTimer > 0) gestureRecoveryTimer--`. -/
def tickRecovery (timer : ℕ) : ℕ :=
  if 0 < timer then timer - 1 else timer

/-- The recovery-timer update of one whole `draw()` frame: arm on a
non-None → None transition, then count down. -/
def recoveryFrame (previousMode currentMode : Mode) (timer : ℕ) : ℕ :=
  tickRecovery (armRecovery previousMode currentMode timer)

/-- The per-burst-particle `random(...)` draws of `triggerExplosion()`:
position jitter (`random(-5, 5)` twice), direction (`random(TWO_PI)`) and
speed (`random(3, 7)`). -/
structure BurstDraws where
  rx : ℝ
  ry : ℝ
  angle : ℝ
  speed : ℝ

/-- One burst particle of `triggerExplosion()`: a freshly constructed
particle `q` repositioned at the midpoint plus jitter, given a strong
outward velocity, and made bright and large.  No wrap or clamp is applied. -/
noncomputable def burstParticle (midX midY : ℝ) (q : Particle) (d : BurstDraws) : Particle :=
  { q with
    x := midX + d.rx
    y := midY + d.ry
    vx := Real.cos d.angle * d.speed
    vy := Real.sin d.angle * d.speed
    alpha := 95
    currentSize := q.baseSize * 3
    targetSize := q.baseSize * 3 }

/-- The burst-spawn loop of `triggerExplosion()`: append `spawnCount = 40`
new particles (each built from a fresh particle `(draws i).1` and its random
draws `(draws i).2`) to the pool. -/
noncomputable def triggerExplosionSpawn (midX midY : ℝ)
    (draws : Fin 40 → Particle × BurstDraws) (particles : List Particle) : List Particle :=
  particles ++ List.ofFn fun i => burstParticle midX midY (draws i).1 (draws i).2

/-- The trim statement of `draw()` (run only when `currentMode === "none"`):
`if (particles.length > MAX_PARTICLES) particles.length = MAX_PARTICLES`,
which truncates the array to its first `MAX_PARTICLES` elements. -/
def trimExcess (mode : Mode) (particles : List Particle) : List Particle :=
  if mode = Mode.none then
    if MAX_PARTICLES < particles.length then particles.take MAX_PARTICLES else particles
  else particles

lemma update_x (env : Env) (r : Draws) (p : Particle) :
    (Particle.update env r p).x =
      wrapCoord (p.x + (p.vx + env.motionDX * 0.7) * p.baseSpeed *
        p5map env.intensity 0 100 0.5 3) width := rfl

lemma update_y (env : Env) (r : Draws) (p : Particle) :
    (Particle.update env r p).y =
      wrapCoord (p.y + (p.vy + env.motionDY * 0.7) * p.baseSpeed *
        p5map env.intensity 0 100 0.5 3) height := rfl

lemma update_vx (env : Env) (r : Draws) (p : Particle) :
    (Particle.update env r p).vx =
      constrain ((p.vx + env.motionDX * 0.7 +
        (repelDelta env.currentMode env.indexFingerTip
          (p.x + (p.vx + env.motionDX * 0.7) * p.baseSpeed * p5map env.intensity 0 100 0.5 3)
          (p.y + (p.vy + env.motionDY * 0.7) * p.baseSpeed * p5map env.intensity 0 100 0.5 3)).1 +
        (attractDelta env.currentMode env.indexFingerTip
          (p.x + (p.vx + env.motionDX * 0.7) * p.baseSpeed * p5map env.intensity 0 100 0.5 3)
          (p.y + (p.vy + env.motionDY * 0.7) * p.baseSpeed * p5map env.intensity 0 100 0.5 3)).1 +
        (explosionDelta env.explosionMidpoint env.explosionTimer
          (p.x + (p.vx + env.motionDX * 0.7) * p.baseSpeed * p5map env.intensity 0 100 0.5 3)
          (p.y + (p.vy + env.motionDY * 0.7) * p.baseSpeed * p5map env.intensity 0 100 0.5 3)).1 +
        (recoveryDelta env.currentMode env.gestureRecoveryTimer r.recX r.recY).1 +
        r.jitX) * 0.95) (-8) 8 := rfl

lemma update_vy (env : Env) (r : Draws) (p : Particle) :
    (Particle.update env r p).vy =
      constrain ((p.vy + env.motionDY * 0.7 +
        (repelDelta env.currentMode env.indexFingerTip
          (p.x + (p.vx + env.motionDX * 0.7) * p.baseSpeed * p5map env.intensity 0 100 0.5 3)
          (p.y + (p.vy + env.motionDY * 0.7) * p.baseSpeed * p5map env.intensity 0 100 0.5 3)).2 +
        (attractDelta env.currentMode env.indexFingerTip
          (p.x + (p.vx + env.motionDX * 0.7) * p.baseSpeed * p5map env.intensity 0 100 0.5 3)
          (p.y + (p.vy + env.motionDY * 0.7) * p.baseSpeed * p5map env.intensity 0 100 0.5 3)).2 +
        (explosionDelta env.explosionMidpoint env.explosionTimer
          (p.x + (p.vx + env.motionDX * 0.7) * p.baseSpeed * p5map env.intensity 0 100 0.5 3)
          (p.y + (p.vy + env.motionDY * 0.7) * p.baseSpeed * p5map env.intensity 0 100 0.5 3)).2 +
        (recoveryDelta env.currentMode env.gestureRecoveryTimer r.recX r.recY).2 +
        r.jitY) * 0.95) (-8) 8 := rfl

lemma update_alpha (env : Env) (r : Draws) (p : Particle) :
    (Particle.update env r p).alpha =
      if env.currentMode = Mode.repel ∨ env.currentMode = Mode.attract ∨
          env.currentMode = Mode.explosion then
        constrain (p5map env.intensity 0 100 20 90 + 5) 0 95
      else
        lerpP5 (p5map env.intensity 0 100 20 90) (p5map env.intensity 0 100 20 90) 0.1 := rfl

lemma wrapCoord_mem (v L : ℝ) (hL : 0 ≤ L) : 0 ≤ wrapCoord v L ∧ wrapCoord v L ≤ L := by
  unfold wrapCoord
  dsimp only
  split_ifs with h1 h2 h3 <;> constructor <;> linarith

lemma abs_constrain_le (v : ℝ) : |constrain v (-8 : ℝ) 8| ≤ 8 := by
  unfold constrain
  rw [abs_le]
  exact ⟨le_max_left _ _, max_le (by norm_num) (min_le_right v 8)⟩

/-- C5: after every per-frame `Particle.update`, in every mode, for any force
contributions and any random draws, the particle position lies in
`[0, width] × [0, height]` (post-wrap) and each velocity component is bounded
by 8 in absolute value. -/
theorem c5_particle_invariant (env : Env) (r : Draws) (p : Particle) :
    0 ≤ (Particle.update env r p).x ∧ (Particle.update env r p).x ≤ width ∧
    0 ≤ (Particle.update env r p).y ∧ (Particle.update env r p).y ≤ height ∧
    |(Particle.update env r p).vx| ≤ 8 ∧ |(Particle.update env r p).vy| ≤ 8 := by
  have hw : (0 : ℝ) ≤ width := by norm_num [width]
  have hh : (0 : ℝ) ≤ height := by norm_num [height]
  refine ⟨?_, ?_, ?_, ?_, ?_, ?_⟩
  · rw [update_x]; exact (wrapCoord_mem _ _ hw).1
  · rw [update_x]; exact (wrapCoord_mem _ _ hw).2
  · rw [update_y]; exact (wrapCoord_mem _ _ hh).1
  · rw [update_y]; exact (wrapCoord_mem _ _ hh).2
  · rw [update_vx]; exact abs_constrain_le _
  · rw [update_vy]; exact abs_constrain_le _

/-- C1 (counterexample): at a concrete input — Mode=None, no fingertip, no
explosion, no recovery, zero motion signal, a single nonzero ambient-jitter
draw of 0.05 — the position produced by the source's `Particle.update`
differs from the position the claim prescribes (all velocity deltas and
damping applied before the same frame's position integration). -/
theorem c1_counterexample :
    (Particle.update ⟨Mode.none, Option.none, Option.none, 0, 0, 0, 0, 0⟩
        ⟨0, 0, 0.05, 0⟩ ⟨103, 104, 0, 0, 1, 5, 5, 5, 0, 50⟩).x ≠
    (Particle.updateClaimed ⟨Mode.none, Option.none, Option.none, 0, 0, 0, 0, 0⟩
        ⟨0, 0, 0.05, 0⟩ ⟨103, 104, 0, 0, 1, 5, 5, 5, 0, 50⟩).x := by
  have h1 : (Particle.update ⟨Mode.none, Option.none, Option.none, 0, 0, 0, 0, 0⟩
      ⟨0, 0, 0.05, 0⟩ ⟨103, 104, 0, 0, 1, 5, 5, 5, 0, 50⟩).x = 103 := by
    rw [update_x]
    norm_num [p5map, wrapCoord, width]
  have h2 : (Particle.updateClaimed ⟨Mode.none, Option.none, Option.none, 0, 0, 0, 0, 0⟩
      ⟨0, 0, 0.05, 0⟩ ⟨103, 104, 0, 0, 1, 5, 5, 5, 0, 50⟩).x = 103.02375 := by
    norm_num [Particle.updateClaimed, repelDelta, attractDelta, explosionDelta,
      recoveryDelta, wrapCoord, p5map, constrain, min_def, max_def, width]
  rw [h1, h2]
  norm_num

/-- C1 (amended): in each frame only the ambient motion coupling is applied
to the velocity before the position integration; the repel, attract,
explosion and recovery deltas (evaluated at the already-integrated position),
the ambient jitter, and then — exactly once, last — the damping
`velocity *= 0.95` followed by the component clamp to `[-8, 8]` are applied
after the integration, so they first affect the next frame's integration. -/
theorem c1_update_order (env : Env) (r : Draws) (p : Particle) :
    (Particle.update env r p).x =
      wrapCoord (p.x + (p.vx + env.motionDX * 0.7) * p.baseSpeed *
        p5map env.intensity 0 100 0.5 3) width ∧
    (Particle.update env r p).y =
      wrapCoord (p.y + (p.vy + env.motionDY * 0.7) * p.baseSpeed *
        p5map env.intensity 0 100 0.5 3) height ∧
    (Particle.update env r p).vx =
      constrain ((p.vx + env.motionDX * 0.7 +
        (repelDelta env.currentMode env.indexFingerTip
          (p.x + (p.vx + env.motionDX * 0.7) * p.baseSpeed * p5map env.intensity 0 100 0.5 3)
          (p.y + (p.vy + env.motionDY * 0.7) * p.baseSpeed * p5map env.intensity 0 100 0.5 3)).1 +
        (attractDelta env.currentMode env.indexFingerTip
          (p.x + (p.vx + env.motionDX * 0.7) * p.baseSpeed * p5map env.intensity 0 100 0.5 3)
          (p.y + (p.vy + env.motionDY * 0.7) * p.baseSpeed * p5map env.intensity 0 100 0.5 3)).1 +
        (explosionDelta env.explosionMidpoint env.explosionTimer
          (p.x + (p.vx + env.motionDX * 0.7) * p.baseSpeed * p5map env.intensity 0 100 0.5 3)
          (p.y + (p.vy + env.motionDY * 0.7) * p.baseSpeed * p5map env.intensity 0 100 0.5 3)).1 +
        (recoveryDelta env.currentMode env.gestureRecoveryTimer r.recX r.recY).1 +
        r.jitX) * 0.95) (-8) 8 ∧
    (Particle.update env r p).vy =
      constrain ((p.vy + env.motionDY * 0.7 +
        (repelDelta env.currentMode env.indexFingerTip
          (p.x + (p.vx + env.motionDX * 0.7) * p.baseSpeed * p5map env.intensity 0 100 0.5 3)
          (p.y + (p.vy + env.motionDY * 0.7) * p.baseSpeed * p5map env.intensity 0 100 0.5 3)).2 +
        (attractDelta env.currentMode env.indexFingerTip
          (p.x + (p.vx + env.motionDX * 0.7) * p.baseSpeed * p5map env.intensity 0 100 0.5 3)
          (p.y + (p.vy + env.motionDY * 0.7) * p.baseSpeed * p5map env.intensity 0 100 0.5 3)).2 +
        (explosionDelta env.explosionMidpoint env.explosionTimer
          (p.x + (p.vx + env.motionDX * 0.7) * p.baseSpeed * p5map env.intensity 0 100 0.5 3)
          (p.y + (p.vy + env.motionDY * 0.7) * p.baseSpeed * p5map env.intensity 0 100 0.5 3)).2 +
        (recoveryDelta env.currentMode env.gestureRecoveryTimer r.recX r.recY).2 +
        r.jitY) * 0.95) (-8) 8 :=
  ⟨update_x env r p, update_y env r p, update_vx env r p, update_vy env r p⟩

/-- C4: evaluating the source's `Particle.update` at Mode=None, intensity 0,
on a particle whose alpha is 95: the resulting alpha is 20 — the unconditional
pre-assignment makes the 0.1-lerp a no-op, so alpha snaps to the target in a
single frame — whereas easing from 95 toward 20 by factor 0.1 would give 87.5. -/
theorem c4_alpha_snaps :
    (Particle.update ⟨Mode.none, Option.none, Option.none, 0, 0, 0, 0, 0⟩
        ⟨0, 0, 0, 0⟩ ⟨103, 104, 0, 0, 1, 5, 5, 5, 0, 95⟩).alpha = 20 ∧
    lerpP5 95 (p5map 0 0 100 20 90) 0.1 = 87.5 ∧ ((20 : ℝ) ≠ 87.5) := by
  refine ⟨?_, by norm_num [lerpP5, p5map], by norm_num⟩
  rw [update_alpha]
  rw [if_neg (by decide)]
  norm_num [lerpP5, p5map]

lemma tickRecovery_sub_one (t : ℕ) : tickRecovery t = t - 1 := by
  unfold tickRecovery
  split_ifs <;> omega

lemma recoveryFrame_none_iter (n t : ℕ) :
    (fun u => recoveryFrame Mode.none Mode.none u)^[n] t = t - n := by
  induction n generalizing t with
  | zero => simp
  | succ k ih =>
    rw [Function.iterate_succ_apply]
    have h1 : recoveryFrame Mode.none Mode.none t = t - 1 := by
      unfold recoveryFrame armRecovery
      rw [if_neg (by simp)]
      exact tickRecovery_sub_one t
    rw [h1, ih]
    omega

/-- C9: a frame whose previous mode is non-None and whose current mode is
None arms the recovery timer to `RECOVERY_DURATION = 120`; every frame with a
positive timer decrements it by 1; after the Repel→None transition frame and
120 further None-mode frames the timer is 0; and with a zero timer the
recovery dispersal contribution to a particle's velocity is exactly `(0, 0)`. -/
theorem c9_recovery_timer :
    (∀ (previousMode : Mode) (t : ℕ), previousMode ≠ Mode.none →
      armRecovery previousMode Mode.none t = RECOVERY_DURATION) ∧
    (∀ t : ℕ, 0 < t → tickRecovery t = t - 1) ∧
    (∀ t0 : ℕ, (fun u => recoveryFrame Mode.none Mode.none u)^[RECOVERY_DURATION]
      (recoveryFrame Mode.repel Mode.none t0) = 0) ∧
    (∀ (mode : Mode) (rx ry : ℝ), recoveryDelta mode 0 rx ry = (0, 0)) := by
  refine ⟨?_, ?_, ?_, ?_⟩
  · intro previousMode t h
    unfold armRecovery
    rw [if_pos ⟨h, rfl⟩]
  · intro t ht
    unfold tickRecovery
    rw [if_pos ht]
  · intro t0
    have h1 : recoveryFrame Mode.repel Mode.none t0 = RECOVERY_DURATION - 1 := by
      unfold recoveryFrame armRecovery
      rw [if_pos ⟨by decide, rfl⟩]
      exact tickRecovery_sub_one _
    rw [h1, recoveryFrame_none_iter]
    norm_num [RECOVERY_DURATION]
  · intro mode rx ry
    unfold recoveryDelta
    rw [if_neg]
    rintro ⟨_, h⟩
    exact lt_irrefl 0 h

/-- C9 (witness): the recovery-timer facts of `c9_recovery_timer` evaluated
at concrete inputs. -/
theorem c9_recovery_timer_witness :
    armRecovery Mode.attract Mode.none 7 = RECOVERY_DURATION ∧
    tickRecovery 5 = 5 - 1 ∧
    (fun u => recoveryFrame Mode.none Mode.none u)^[RECOVERY_DURATION]
      (recoveryFrame Mode.repel Mode.none 3) = 0 ∧
    recoveryDelta Mode.none 0 1 1 = (0, 0) :=
  ⟨c9_recovery_timer.1 Mode.attract 7 (by decide),
   c9_recovery_timer.2.1 5 (by norm_num),
   c9_recovery_timer.2.2.1 3,
   c9_recovery_timer.2.2.2 Mode.none 1 1⟩

/-- C8: spawning a burst of 40 onto a pool of `MAX_PARTICLES = 100` appended
particles gives a pool of exactly 140; the Mode=None trim pass truncates the
append-ordered collection back to exactly the original 100 particles, so the
original particles survive and precisely the burst particles are removed. -/
theorem c8_burst_and_trim (pool : List Particle) (hlen : pool.length = MAX_PARTICLES)
    (midX midY : ℝ) (draws : Fin 40 → Particle × BurstDraws) :
    (triggerExplosionSpawn midX midY draws pool).length = 140 ∧
    trimExcess Mode.none (triggerExplosionSpawn midX midY draws pool) = pool ∧
    (trimExcess Mode.none (triggerExplosionSpawn midX midY draws pool)).length =
      MAX_PARTICLES := by
  have hlen' : (triggerExplosionSpawn midX midY draws pool).length = 140 := by
    simp [triggerExplosionSpawn, hlen, MAX_PARTICLES]
  have htrim : trimExcess Mode.none (triggerExplosionSpawn midX midY draws pool) = pool := by
    unfold trimExcess
    rw [if_pos rfl, if_pos (by rw [hlen']; norm_num [MAX_PARTICLES])]
    unfold triggerExplosionSpawn
    rw [← hlen, List.take_left]
  exact ⟨hlen', htrim, by rw [htrim, hlen]⟩

/-- A concrete particle value used by witnesses. -/
def pDefault : Particle :=
  ⟨0, 0, 0, 0, 1, 5, 5, 5, 0, 50⟩

/-- Concrete burst draws used by witnesses. -/
def bDefault : BurstDraws :=
  ⟨0, 0, 0, 3⟩

/-- C8 (witness): the burst-then-trim facts evaluated on a concrete pool of
100 particles and concrete draws. -/
theorem c8_burst_and_trim_witness :
    (triggerExplosionSpawn 320 240 (fun _ => (pDefault, bDefault))
      (List.replicate 100 pDefault)).length = 140 ∧
    trimExcess Mode.none (triggerExplosionSpawn 320 240 (fun _ => (pDefault, bDefault))
      (List.replicate 100 pDefault)) = List.replicate 100 pDefault ∧
    (trimExcess Mode.none (triggerExplosionSpawn 320 240 (fun _ => (pDefault, bDefault))
      (List.replicate 100 pDefault))).length = MAX_PARTICLES :=
  c8_burst_and_trim (List.replicate 100 pDefault) (by simp [MAX_PARTICLES]) 320 240 _

/-- C10: a burst particle is stored at exactly `midpoint + jitter` with no
wrap or clamp at spawn time; with the legal draw `-5` and a midpoint within
5 px of the left canvas edge the spawned x position is negative, i.e. outside
`[0, width]`; and the next per-frame `Particle.update` returns the position
to `[0, width] × [0, height]`. -/
theorem c10_spawn_out_of_bounds :
    (∀ (midX midY : ℝ) (q : Particle) (d : BurstDraws),
      (burstParticle midX midY q d).x = midX + d.rx ∧
      (burstParticle midX midY q d).y = midY + d.ry) ∧
    (∀ (midX midY : ℝ) (q : Particle) (ry a s : ℝ), midX < 5 →
      (burstParticle midX midY q ⟨-5, ry, a, s⟩).x < 0) ∧
    (∀ (env : Env) (r : Draws) (p : Particle),
      0 ≤ (Particle.update env r p).x ∧ (Particle.update env r p).x ≤ width ∧
      0 ≤ (Particle.update env r p).y ∧ (Particle.update env r p).y ≤ height) := by
  have hw : (0 : ℝ) ≤ width := by norm_num [width]
  have hh : (0 : ℝ) ≤ height := by norm_num [height]
  refine ⟨fun midX midY q d => ⟨rfl, rfl⟩, ?_, ?_⟩
  · intro midX midY q ry a s h
    show midX + (-5 : ℝ) < 0
    linarith
  · intro env r p
    refine ⟨?_, ?_, ?_, ?_⟩
    · rw [update_x]; exact (wrapCoord_mem _ _ hw).1
    · rw [update_x]; exact (wrapCoord_mem _ _ hw).2
    · rw [update_y]; exact (wrapCoord_mem _ _ hh).1
    · rw [update_y]; exact (wrapCoord_mem _ _ hh).2

/-- C10 (witness): a burst particle spawned at midpoint x = 2 (within 5 px of
the left edge) with the position-jitter draw `-5` lies outside the canvas. -/
theorem c10_spawn_out_of_bounds_witness :
    (burstParticle 2 240 pDefault ⟨-5, 0, 0, 3⟩).x < 0 :=
  c10_spawn_out_of_bounds.2.1 2 240 pDefault 0 0 3 (by norm_num)

lemma exceptBind_ok {α β : Type} (a : α) (f : α → Except Unit β) :
    (Except.ok a : Except Unit α) >>= f = f a := rfl

lemma exceptBind_error {α β : Type} (f : α → Except Unit β) :
    (Except.error () : Except Unit α) >>= f = .error () := rfl

/-- C2 (counterexample): a malformed observation — one detected hand carrying
0 of the expected 21 landmarks — makes the classifier throw (the open-palm
test dereferences the missing wrist landmark) instead of yielding Mode=None. -/
theorem c2_counterexample :
    updateMode [([] : Hand)] false = .error () ∧
    updateMode [([] : Hand)] false ≠ .ok (Mode.none, false, false) :=
  ⟨rfl, by rw [show updateMode [([] : Hand)] false = .error () from rfl]; simp⟩

/-- C2 (amended): the classifier does not treat a malformed hand as "no
hand": for every observation of exactly one hand carrying fewer than 10
landmarks, `updateMode` raises (the palm-center computation of the open-palm
test accesses landmark 0 and landmark 9, one of which is missing) rather
than producing any mode. -/
theorem c2_short_hand_throws (h : Hand) (trig : Bool) (hlen : h.length < 10) :
    updateMode [h] trig = .error () := by
  cases h with
  | nil => rfl
  | cons p rest =>
    have h0 : lkp (p :: rest) 0 = .ok (nthD (p :: rest) 0) :=
      lkp_eq_ok _ 0 (by simp)
    have h9 : lkp (p :: rest) 9 = .error () :=
      lkp_eq_error _ 9 (by simp at hlen ⊢; omega)
    have hop : detectOpenPalm (p :: rest) = .error () := by
      unfold detectOpenPalm
      rw [h0, exceptBind_ok, h9, exceptBind_error]
    have htwo : detectTwoHands [p :: rest] = .ok false := rfl
    unfold updateMode
    rw [htwo, exceptBind_ok]
    simp only [Bool.false_eq_true, if_false]
    rw [hop, exceptBind_error]

/-- C2 (witness): a single hand with a single landmark throws. -/
theorem c2_short_hand_throws_witness :
    updateMode [[(⟨0.5, 0.5⟩ : Pt)]] false = .error () :=
  c2_short_hand_throws [⟨0.5, 0.5⟩] false (by simp)

/-- C3 (counterexample): with a stored fingertip at (100, 100), a no-hand
frame leaves the previous-fingertip state set (not reset to none), and when
the hand reappears at (300, 100) the first observation computes a
displacement of 200 from the pre-loss position, giving intensity 100 — not
the zero displacement the claim asserts. -/
theorem c3_counterexample :
    (motionFrame ⟨some ⟨100, 100⟩, 50, 1, 1⟩ Option.none).prevFingerPos ≠ Option.none ∧
    (motionFrame (motionFrame ⟨some ⟨100, 100⟩, 50, 1, 1⟩ Option.none)
      (some ⟨300, 100⟩)).motionIntensity = 100 := by
  constructor
  · simp [motionFrame]
  · have h200 : Real.sqrt (40000 : ℝ) = 200 := by
      rw [show (40000 : ℝ) = 200 ^ 2 by norm_num]
      exact Real.sqrt_sq (by norm_num)
    simp only [motionFrame, calculateMotionFromHand]
    norm_num [constrain, p5map, min_def, max_def, h200]

/-- C3 (amended): on a frame with no hand detected the motion signal
(intensity, directionX, directionY) instantly becomes zero but the stored
previous-fingertip state is retained, not reset; consequently, when a hand
reappears after an absence, the first observation computes its displacement
from the retained pre-loss position. -/
theorem c3_motion_reset (s : MotionState) :
    ((motionFrame s Option.none).prevFingerPos = s.prevFingerPos ∧
      (motionFrame s Option.none).motionIntensity = 0 ∧
      (motionFrame s Option.none).motionDX = 0 ∧
      (motionFrame s Option.none).motionDY = 0) ∧
    (∀ (p t : Pt), s.prevFingerPos = some p →
      (motionFrame s (some t)).motionIntensity =
        constrain (p5map (Real.sqrt ((t.x - p.x) * (t.x - p.x) + (t.y - p.y) * (t.y - p.y)))
          0 20 0 100) 0 100) := by
  constructor
  · exact ⟨rfl, rfl, rfl, rfl⟩
  · intro p t hp
    simp only [motionFrame, calculateMotionFromHand, hp]

/-- C3 (witness): the amended statement evaluated at a concrete state holding
a previous fingertip at (7, 9). -/
theorem c3_motion_reset_witness :
    (motionFrame ⟨some ⟨7, 9⟩, 5, 1, 1⟩ Option.none).motionIntensity = 0 ∧
    (motionFrame ⟨some ⟨7, 9⟩, 5, 1, 1⟩ (some ⟨7, 9⟩)).motionIntensity = 0 := by
  constructor
  · exact (c3_motion_reset ⟨some ⟨7, 9⟩, 5, 1, 1⟩).1.2.1
  · rw [(c3_motion_reset ⟨some ⟨7, 9⟩, 5, 1, 1⟩).2 ⟨7, 9⟩ ⟨7, 9⟩ rfl]
    norm_num [constrain, p5map, min_def, max_def, Real.sqrt_zero]

lemma fingertipsFar_ok_true (h : Hand) (px py : ℝ) (l : List ℕ)
    (hlen : ∀ i ∈ l, i < h.length) (hfar : ∀ i ∈ l, ¬ tipDistTo h px py i < 0.15) :
    fingertipsFar h px py l = .ok true := by
  induction l with
  | nil => rfl
  | cons i rest ih =>
    unfold fingertipsFar
    rw [lkp_eq_ok h i (hlen i (by simp)), exceptBind_ok]
    dsimp only
    have hfi : ¬ Real.sqrt (((nthD h i).x - px) * ((nthD h i).x - px) +
        ((nthD h i).y - py) * ((nthD h i).y - py)) < 0.15 := hfar i (by simp)
    rw [if_neg hfi]
    exact ih (fun j hj => hlen j (by simp [hj])) (fun j hj => hfar j (by simp [hj]))

lemma fingertipsFar_ok_false (h : Hand) (px py : ℝ) (l : List ℕ)
    (hlen : ∀ i ∈ l, i < h.length) (hnear : ∃ i ∈ l, tipDistTo h px py i < 0.15) :
    fingertipsFar h px py l = .ok false := by
  induction l with
  | nil => obtain ⟨i, hi, _⟩ := hnear; exact absurd hi (by simp)
  | cons i rest ih =>
    unfold fingertipsFar
    rw [lkp_eq_ok h i (hlen i (by simp)), exceptBind_ok]
    dsimp only
    by_cases hc : tipDistTo h px py i < 0.15
    · rw [if_pos (show Real.sqrt (((nthD h i).x - px) * ((nthD h i).x - px) +
        ((nthD h i).y - py) * ((nthD h i).y - py)) < 0.15 from hc)]
    · rw [if_neg (show ¬ Real.sqrt (((nthD h i).x - px) * ((nthD h i).x - px) +
        ((nthD h i).y - py) * ((nthD h i).y - py)) < 0.15 from hc)]
      obtain ⟨j, hj, hjlt⟩ := hnear
      rcases List.mem_cons.mp hj with rfl | hj'
      · exact absurd hjlt hc
      · exact ih (fun k hk => hlen k (by simp [hk])) ⟨j, hj', hjlt⟩

lemma fingertipsNear_ok_true (h : Hand) (px py : ℝ) (l : List ℕ)
    (hlen : ∀ i ∈ l, i < h.length) (hnear : ∀ i ∈ l, ¬ tipDistTo h px py i > 0.12) :
    fingertipsNear h px py l = .ok true := by
  induction l with
  | nil => rfl
  | cons i rest ih =>
    unfold fingertipsNear
    rw [lkp_eq_ok h i (hlen i (by simp)), exceptBind_ok]
    dsimp only
    have hfi : ¬ Real.sqrt (((nthD h i).x - px) * ((nthD h i).x - px) +
        ((nthD h i).y - py) * ((nthD h i).y - py)) > 0.12 := hnear i (by simp)
    rw [if_neg hfi]
    exact ih (fun j hj => hlen j (by simp [hj])) (fun j hj => hnear j (by simp [hj]))

lemma fingertipsNear_ok_false (h : Hand) (px py : ℝ) (l : List ℕ)
    (hlen : ∀ i ∈ l, i < h.length) (hfar : ∃ i ∈ l, tipDistTo h px py i > 0.12) :
    fingertipsNear h px py l = .ok false := by
  induction l with
  | nil => obtain ⟨i, hi, _⟩ := hfar; exact absurd hi (by simp)
  | cons i rest ih =>
    unfold fingertipsNear
    rw [lkp_eq_ok h i (hlen i (by simp)), exceptBind_ok]
    dsimp only
    by_cases hc : tipDistTo h px py i > 0.12
    · rw [if_pos (show Real.sqrt (((nthD h i).x - px) * ((nthD h i).x - px) +
        ((nthD h i).y - py) * ((nthD h i).y - py)) > 0.12 from hc)]
    · rw [if_neg (show ¬ Real.sqrt (((nthD h i).x - px) * ((nthD h i).x - px) +
        ((nthD h i).y - py) * ((nthD h i).y - py)) > 0.12 from hc)]
      obtain ⟨j, hj, hjlt⟩ := hfar
      rcases List.mem_cons.mp hj with rfl | hj'
      · exact absurd hjlt hc
      · exact ih (fun k hk => hlen k (by simp [hk])) ⟨j, hj', hjlt⟩

lemma detectOpenPalm_eq (h : Hand) (hlen : 10 ≤ h.length) :
    detectOpenPalm h = fingertipsFar h (palmX h) (palmY h) fingertipIndices := by
  unfold detectOpenPalm
  rw [lkp_eq_ok h 0 (by omega), exceptBind_ok, lkp_eq_ok h 9 (by omega), exceptBind_ok]
  rfl

lemma detectFist_eq (h : Hand) (hlen : 10 ≤ h.length) :
    detectFist h = fingertipsNear h (palmX h) (palmY h) fingertipIndices := by
  unfold detectFist
  rw [lkp_eq_ok h 0 (by omega), exceptBind_ok, lkp_eq_ok h 9 (by omega), exceptBind_ok]
  rfl

lemma detectTwoHands_pair (h1 h2 : Hand) (l1 : 0 < h1.length) (l2 : 0 < h2.length) :
    detectTwoHands [h1, h2] = .ok (if wristDist h1 h2 > 0.15 then true else false) := by
  unfold detectTwoHands
  dsimp only
  rw [lkp_eq_ok h1 0 l1, exceptBind_ok, lkp_eq_ok h2 0 l2, exceptBind_ok]
  rfl

lemma tips_lt_length (h : Hand) (hlen : 21 ≤ h.length) :
    ∀ i ∈ fingertipIndices, i < h.length := by
  intro i hi
  simp only [fingertipIndices, List.mem_cons, List.not_mem_nil, or_false] at hi
  rcases hi with rfl | rfl | rfl | rfl | rfl <;> omega

lemma updateMode_one (h : Hand) (trig : Bool) :
    updateMode [h] trig = (do
      let openPalm ← detectOpenPalm h
      if openPalm then Except.ok (Mode.repel, false, false)
      else do
        let fist ← detectFist h
        if fist then Except.ok (Mode.attract, false, false)
        else Except.ok (Mode.none, false, false)) := rfl

lemma updateMode_of_two_true (obs : List Hand) (trig : Bool)
    (htwo : detectTwoHands obs = .ok true) :
    updateMode obs trig = .ok (Mode.explosion, true, !trig) := by
  unfold updateMode
  rw [htwo, exceptBind_ok, if_pos rfl]

lemma updateMode_pair_below (h1 h2 : Hand) (trig : Bool)
    (htwo : detectTwoHands [h1, h2] = .ok false) :
    updateMode [h1, h2] trig = .ok (Mode.none, false, false) := by
  unfold updateMode
  rw [htwo, exceptBind_ok]
  simp only [Bool.false_eq_true, if_false]

lemma updateMode_latch_resets (obs : List Hand) (trig : Bool) (m : Mode) (f fd : Bool)
    (hup : updateMode obs trig = .ok (m, f, fd))
    (htwo : detectTwoHands obs = .ok false) :
    f = false ∧ fd = false := by
  unfold updateMode at hup
  rw [htwo, exceptBind_ok] at hup
  simp only [Bool.false_eq_true, if_false] at hup
  rcases obs with _ | ⟨lm, _ | ⟨o2, rest⟩⟩
  · simp only [Except.ok.injEq, Prod.mk.injEq] at hup
    exact ⟨hup.2.1.symm, hup.2.2.symm⟩
  · dsimp only at hup
    cases hop : detectOpenPalm lm with
    | error e => rw [hop, exceptBind_error] at hup; exact absurd hup (by simp)
    | ok b =>
      rw [hop, exceptBind_ok] at hup
      cases b with
      | true =>
        simp only [if_true, Except.ok.injEq, Prod.mk.injEq] at hup
        exact ⟨hup.2.1.symm, hup.2.2.symm⟩
      | false =>
        simp only [Bool.false_eq_true, if_false] at hup
        cases hfist : detectFist lm with
        | error e => rw [hfist, exceptBind_error] at hup; exact absurd hup (by simp)
        | ok b' =>
          rw [hfist, exceptBind_ok] at hup
          cases b' <;>
            simp only [if_true, Bool.false_eq_true, if_false,
              Except.ok.injEq, Prod.mk.injEq] at hup <;>
            exact ⟨hup.2.1.symm, hup.2.2.symm⟩
  · simp only [Except.ok.injEq, Prod.mk.injEq] at hup
    exact ⟨hup.2.1.symm, hup.2.2.symm⟩

lemma runMode_latched (l : List (List Hand))
    (hall : ∀ o ∈ l, detectTwoHands o = .ok true) :
    runMode true l = some (true, 0) := by
  induction l with
  | nil => rfl
  | cons o rest ih =>
    have h1 := updateMode_of_two_true o true (hall o (by simp))
    unfold runMode
    rw [h1]
    dsimp only
    rw [ih (fun o' ho' => hall o' (by simp [ho']))]
    simp

/-- C6: during a maximal run of consecutive frames on which the two-hand
condition holds, the burst-spawn fires exactly once — on the transition into
the run (entering with the latch clear, N qualifying frames produce exactly 1
`triggerExplosion()` call and leave the latch set); a qualifying frame fires
iff the latch was clear; and any frame on which the two-hand condition fails
resets the latch (and does not fire), re-arming the next run. -/
theorem c6_explosion_edge_trigger :
    (∀ l : List (List Hand), l ≠ [] → (∀ o ∈ l, detectTwoHands o = .ok true) →
      runMode false l = some (true, 1)) ∧
    (∀ (o : List Hand) (trig : Bool), detectTwoHands o = .ok true →
      updateMode o trig = .ok (Mode.explosion, true, !trig)) ∧
    (∀ (o : List Hand) (trig : Bool) (m : Mode) (f fd : Bool),
      updateMode o trig = .ok (m, f, fd) → detectTwoHands o = .ok false →
      f = false ∧ fd = false) := by
  refine ⟨?_, updateMode_of_two_true, updateMode_latch_resets⟩
  intro l hne hall
  cases l with
  | nil => exact absurd rfl hne
  | cons o rest =>
    have h1 := updateMode_of_two_true o false (hall o (by simp))
    unfold runMode
    rw [h1]
    dsimp only
    rw [runMode_latched rest (fun o' ho' => hall o' (by simp [ho']))]
    simp

/-- C6 (witness): one frame with two one-landmark hands at wrist distance 0.5
(> 0.15), fed from a clear latch, fires exactly one burst-spawn. -/
theorem c6_explosion_edge_trigger_witness :
    runMode false [[[(⟨0, 0⟩ : Pt)], [(⟨0.3, 0.4⟩ : Pt)]]] = some (true, 1) := by
  have e1 : nthD [(⟨0, 0⟩ : Pt)] 0 = ⟨0, 0⟩ := rfl
  have e2 : nthD [(⟨0.3, 0.4⟩ : Pt)] 0 = ⟨0.3, 0.4⟩ := rfl
  have hwd : wristDist [(⟨0, 0⟩ : Pt)] [(⟨0.3, 0.4⟩ : Pt)] = 0.5 := by
    simp only [wristDist, e1, e2]
    rw [show ((0 : ℝ) - 0.3) * ((0 : ℝ) - 0.3) + ((0 : ℝ) - 0.4) * ((0 : ℝ) - 0.4) =
      0.5 * 0.5 from by norm_num]
    exact Real.sqrt_mul_self (by norm_num)
  have htwo : detectTwoHands [[(⟨0, 0⟩ : Pt)], [(⟨0.3, 0.4⟩ : Pt)]] = .ok true := by
    rw [detectTwoHands_pair _ _ (by simp) (by simp), hwd,
      if_pos (show (0.5 : ℝ) > 0.15 by norm_num)]
  refine c6_explosion_edge_trigger.1 _ (by simp) ?_
  intro o ho
  simp only [List.mem_singleton] at ho
  rw [ho]
  exact htwo

/-- C7: `updateMode` classifies by priority, first match wins: exactly two
hands with wrist distance > 0.15 give Explosion; two hands at distance
≤ 0.15 (such as 0.05) give None, never Explosion; with exactly one hand, all
five fingertip-to-palm-center distances > 0.15 give Repel, all five < 0.12
give Attract, and a mixed configuration (some extended, some curled) gives
None; with zero hands or more than two hands the mode is None. -/
theorem c7_mode_priority :
    (∀ (h1 h2 : Hand) (trig : Bool), 0 < h1.length → 0 < h2.length →
      wristDist h1 h2 > 0.15 →
      updateMode [h1, h2] trig = .ok (Mode.explosion, true, !trig)) ∧
    (∀ (h1 h2 : Hand) (trig : Bool), 0 < h1.length → 0 < h2.length →
      wristDist h1 h2 ≤ 0.15 →
      updateMode [h1, h2] trig = .ok (Mode.none, false, false)) ∧
    (∀ (h : Hand) (trig : Bool), 21 ≤ h.length →
      (∀ i ∈ fingertipIndices, palmDist h i > 0.15) →
      updateMode [h] trig = .ok (Mode.repel, false, false)) ∧
    (∀ (h : Hand) (trig : Bool), 21 ≤ h.length →
      (∀ i ∈ fingertipIndices, palmDist h i < 0.12) →
      updateMode [h] trig = .ok (Mode.attract, false, false)) ∧
    (∀ (h : Hand) (trig : Bool), 21 ≤ h.length →
      (∃ i ∈ fingertipIndices, palmDist h i > 0.15) →
      (∃ j ∈ fingertipIndices, palmDist h j < 0.12) →
      updateMode [h] trig = .ok (Mode.none, false, false)) ∧
    (∀ trig : Bool, updateMode [] trig = .ok (Mode.none, false, false)) ∧
    (∀ (h1 h2 h3 : Hand) (rest : List Hand) (trig : Bool),
      updateMode (h1 :: h2 :: h3 :: rest) trig = .ok (Mode.none, false, false)) := by
  refine ⟨?_, ?_, ?_, ?_, ?_, fun trig => rfl, fun h1 h2 h3 rest trig => rfl⟩
  · intro h1 h2 trig l1 l2 hd
    apply updateMode_of_two_true
    rw [detectTwoHands_pair h1 h2 l1 l2, if_pos hd]
  · intro h1 h2 trig l1 l2 hle
    apply updateMode_pair_below
    rw [detectTwoHands_pair h1 h2 l1 l2, if_neg (not_lt.mpr hle)]
  · intro h trig hlen hfar
    have hop : detectOpenPalm h = .ok true := by
      rw [detectOpenPalm_eq h (by omega)]
      exact fingertipsFar_ok_true h _ _ _ (tips_lt_length h hlen)
        (fun i hi => not_lt.mpr (le_of_lt (hfar i hi)))
    rw [updateMode_one, hop, exceptBind_ok, if_pos rfl]
  · intro h trig hlen hclose
    have hop : detectOpenPalm h = .ok false := by
      rw [detectOpenPalm_eq h (by omega)]
      refine fingertipsFar_ok_false h _ _ _ (tips_lt_length h hlen)
        ⟨4, by simp [fingertipIndices], ?_⟩
      exact lt_trans (hclose 4 (by simp [fingertipIndices])) (by norm_num)
    have hfist : detectFist h = .ok true := by
      rw [detectFist_eq h (by omega)]
      exact fingertipsNear_ok_true h _ _ _ (tips_lt_length h hlen)
        (fun i hi => not_lt.mpr (le_of_lt (hclose i hi)))
    rw [updateMode_one, hop, exceptBind_ok]
    simp only [Bool.false_eq_true, if_false]
    rw [hfist, exceptBind_ok, if_pos rfl]
  · intro h trig hlen hext hcurl
    obtain ⟨i, hi, hiext⟩ := hext
    obtain ⟨j, hj, hjcurl⟩ := hcurl
    have hop : detectOpenPalm h = .ok false := by
      rw [detectOpenPalm_eq h (by omega)]
      exact fingertipsFar_ok_false h _ _ _ (tips_lt_length h hlen)
        ⟨j, hj, lt_trans hjcurl (by norm_num)⟩
    have hfist : detectFist h = .ok false := by
      rw [detectFist_eq h (by omega)]
      exact fingertipsNear_ok_false h _ _ _ (tips_lt_length h hlen)
        ⟨i, hi, lt_trans (by norm_num) hiext⟩
    rw [updateMode_one, hop, exceptBind_ok]
    simp only [Bool.false_eq_true, if_false]
    rw [hfist, exceptBind_ok]
    simp only [Bool.false_eq_true, if_false]

/-- A concrete 21-landmark open-palm hand: wrist (0.5, 0.8), middle MCP
(0.5, 0.2) — palm center (0.5, 0.5) — and all five fingertips at
(0.8, 0.5), i.e. at distance 0.3 from the palm center. -/
noncomputable def openHand : Hand :=
  [⟨0.5, 0.8⟩, ⟨0.5, 0.5⟩, ⟨0.5, 0.5⟩, ⟨0.5, 0.5⟩, ⟨0.8, 0.5⟩,
   ⟨0.5, 0.5⟩, ⟨0.5, 0.5⟩, ⟨0.5, 0.5⟩, ⟨0.8, 0.5⟩, ⟨0.5, 0.2⟩,
   ⟨0.5, 0.5⟩, ⟨0.5, 0.5⟩, ⟨0.8, 0.5⟩, ⟨0.5, 0.5⟩, ⟨0.5, 0.5⟩,
   ⟨0.5, 0.5⟩, ⟨0.8, 0.5⟩, ⟨0.5, 0.5⟩, ⟨0.5, 0.5⟩, ⟨0.5, 0.5⟩, ⟨0.8, 0.5⟩]

/-- C7 (witness): the concrete 21-landmark open-palm hand (all fingertip
distances 0.3 > 0.15) classifies as Repel. -/
theorem c7_mode_priority_witness :
    updateMode [openHand] false = .ok (Mode.repel, false, false) := by
  have h0 : nthD openHand 0 = ⟨0.5, 0.8⟩ := rfl
  have h9 : nthD openHand 9 = ⟨0.5, 0.2⟩ := rfl
  have h4 : nthD openHand 4 = ⟨0.8, 0.5⟩ := rfl
  have h8 : nthD openHand 8 = ⟨0.8, 0.5⟩ := rfl
  have h12 : nthD openHand 12 = ⟨0.8, 0.5⟩ := rfl
  have h16 : nthD openHand 16 = ⟨0.8, 0.5⟩ := rfl
  have h20 : nthD openHand 20 = ⟨0.8, 0.5⟩ := rfl
  refine c7_mode_priority.2.2.1 openHand false (by norm_num [openHand]) ?_
  intro i hi
  simp only [fingertipIndices, List.mem_cons, List.not_mem_nil, or_false] at hi
  rcases hi with rfl | rfl | rfl | rfl | rfl <;>
    simp only [palmDist, tipDistTo, palmX, palmY, h0, h9, h4, h8, h12, h16, h20] <;>
    exact Real.lt_sqrt_of_sq_lt (by norm_num)
